import Mathlib

/-!
Shallow embedding of the WhenWorks calendar-sharing backend
(`src/backend`): the relational data model (users, events, and the
`user_shares` join table) and the request handlers of
`app/api/routes/shared.py`, `app/api/routes/events.py`,
`app/api/routes/auth_routes.py` and `app/api/routes/auth.py`.

The database session is modelled as an explicit `DB` value threaded
through each handler; a handler either raises an `HError` (modelling
`HTTPException`) leaving the state untouched, or returns a value
together with the committed state.
-/

namespace WhenWorks

/-- A row of the `users` table (`app/models/user.py`).  Timestamps are
omitted: no claim mentions them. -/
structure User where
  id : Nat
  name : String
  username : String
  email : String
  hashed_password : String
deriving DecidableEq, Repr

/-- A row of the `events` table (`app/models/events.py`).  Date-times
travel as ISO strings in the API schemas, so they are strings here. -/
structure Event where
  id : Nat
  title : String
  description : Option String
  start_time : String
  end_time : String
  location : Option String
  owner_id : Nat
deriving DecidableEq, Repr

/-- The relational store: the `users` and `events` tables and the
`user_shares` join table as ordered pairs `(sharer_id, shared_with_id)`.
`nextUserId` / `nextEventId` model the autoincrement primary keys. -/
structure DB where
  users : List User
  events : List Event
  edges : List (Nat × Nat)
  nextUserId : Nat
  nextEventId : Nat
deriving DecidableEq, Repr

/-- An `HTTPException(status_code, detail)`. -/
structure HError where
  status : Nat
  detail : String
deriving DecidableEq, Repr

/-- `db.query(User).filter(User.id == uid).first()`. -/
def queryUserById (db : DB) (uid : Nat) : Option User :=
  db.users.find? (fun u => u.id == uid)

/-- Request body of `POST /events` and of
`POST /shared/share-with-me/{user_id}/events` (`schemas.EventCreate`). -/
structure EventCreate where
  title : String
  description : Option String
  start_time : String
  end_time : String
  location : Option String
deriving DecidableEq, Repr

/-- Request body of `PUT /events/{event_id}` (`schemas.EventUpdate`):
every field optional, `none` meaning "not set". -/
structure EventUpdate where
  title : Option String
  description : Option String
  start_time : Option String
  end_time : Option String
  location : Option String
deriving DecidableEq, Repr

/-- `for key, value in event_update.dict(exclude_unset=True).items():
setattr(event, key, value)` — every supplied field overwrites the row. -/
def applyEventUpdate (e : Event) (p : EventUpdate) : Event :=
  { e with
    title := p.title.getD e.title
    description := match p.description with
      | some d => some d
      | none => e.description
    start_time := p.start_time.getD e.start_time
    end_time := p.end_time.getD e.end_time
    location := match p.location with
      | some l => some l
      | none => e.location }

/-- Replace the first list element satisfying `p` (the ORM mutates the
single row returned by `.first()` in place). -/
def replaceFirstEvent (p : Event → Bool) (e2 : Event) : List Event → List Event
  | [] => []
  | x :: xs => if p x then e2 :: xs else x :: replaceFirstEvent p e2 xs

/-- Remove the first list element satisfying `p` (`db.delete(row)` on the
single row returned by `.first()`). -/
def removeFirstEvent (p : Event → Bool) : List Event → List Event
  | [] => []
  | x :: xs => if p x then xs else x :: removeFirstEvent p xs

/-! ## `app/api/routes/shared.py` -/

/-- `GET /shared/` (`get_shared_users`): the query is
`db.query(User).filter(User.shared_with.any(id=current_user.id)).all()`,
i.e. the users `u` whose `shared_with` collection contains the current
user — the users holding an edge `(u.id, c.id)`; 404 when empty. -/
def get_shared_users (c : User) (db : DB) : Except HError (List User) :=
  let shared_users := db.users.filter (fun u => db.edges.contains (u.id, c.id))
  if shared_users.isEmpty then
    Except.error { status := 404, detail := "No users found" }
  else
    Except.ok shared_users

/-- `POST /shared/share/{user_id}` (`share_calendar_with_user`): 404 when
the target does not exist; a no-op returning the target when the edge
`(c.id, target.id)` already exists; otherwise appends the edge. -/
def share_calendar_with_user (user_id : Nat) (c : User) (db : DB) :
    Except HError User × DB :=
  match queryUserById db user_id with
  | none => (Except.error { status := 404, detail := "User not found" }, db)
  | some user_to_share =>
    if db.edges.contains (c.id, user_to_share.id) then
      (Except.ok user_to_share, db)
    else
      (Except.ok user_to_share,
        { db with edges := db.edges ++ [(c.id, user_to_share.id)] })

/-- `DELETE /shared/unshare/{user_id}` (`unshare_calendar_with_user`):
404 when the target does not exist; a silent no-op when the edge is
absent; otherwise removes the first occurrence of the edge. -/
def unshare_calendar_with_user (user_id : Nat) (c : User) (db : DB) :
    Except HError Unit × DB :=
  match queryUserById db user_id with
  | none => (Except.error { status := 404, detail := "User not found" }, db)
  | some user_to_unshare =>
    if db.edges.contains (c.id, user_to_unshare.id) then
      (Except.ok (), { db with edges := db.edges.erase (c.id, user_to_unshare.id) })
    else
      (Except.ok (), db)

/-- `GET /shared/shared-with-me` (`get_calendars_shared_with_me`): the
query is again
`db.query(User).filter(User.shared_with.any(id=current_user.id)).all()`;
404 when empty. -/
def get_calendars_shared_with_me (c : User) (db : DB) : Except HError (List User) :=
  let users_who_shared := db.users.filter (fun u => db.edges.contains (u.id, c.id))
  if users_who_shared.isEmpty then
    Except.error { status := 404, detail := "No users found" }
  else
    Except.ok users_who_shared

/-- `POST /shared/share-with-me/{user_id}` (`share_calendar_with_me`):
404 when the sharer does not exist; a no-op when the edge
`(sharer.id, c.id)` already exists; otherwise appends it. -/
def share_calendar_with_me (user_id : Nat) (c : User) (db : DB) :
    Except HError User × DB :=
  match queryUserById db user_id with
  | none => (Except.error { status := 404, detail := "User not found" }, db)
  | some user_to_share =>
    if db.edges.contains (user_to_share.id, c.id) then
      (Except.ok c, db)
    else
      (Except.ok c, { db with edges := db.edges ++ [(user_to_share.id, c.id)] })

/-- `POST /shared/share-with-me/{user_id}/events` (`share_event_with_me`):
404 when the sharer does not exist; when the edge `(sharer.id, c.id)`
exists, inserts a new `Event` carrying the supplied fields with
`owner_id = c.id`; otherwise 403. -/
def share_event_with_me (event_data : EventCreate) (user_id : Nat) (c : User)
    (db : DB) : Except HError Event × DB :=
  match queryUserById db user_id with
  | none => (Except.error { status := 404, detail := "User not found" }, db)
  | some user_to_share =>
    if db.edges.contains (user_to_share.id, c.id) then
      let new_event : Event :=
        { id := db.nextEventId
          title := event_data.title
          description := event_data.description
          start_time := event_data.start_time
          end_time := event_data.end_time
          location := event_data.location
          owner_id := c.id }
      (Except.ok new_event,
        { db with events := db.events ++ [new_event]
                  nextEventId := db.nextEventId + 1 })
    else
      (Except.error { status := 403, detail := "Calendar not shared with you" }, db)

/-! ## `app/api/routes/events.py` -/

/-- `PUT /events/{event_id}` (`update_event`): the lookup predicate is
`Event.id == event_id, Event.owner_id == current_user.id`; 404 when it
matches nothing, otherwise the patch is applied to the matched row. -/
def update_event (event_id : Nat) (event_update : EventUpdate) (c : User)
    (db : DB) : Except HError Event × DB :=
  match db.events.find? (fun e => e.id == event_id && e.owner_id == c.id) with
  | none => (Except.error { status := 404, detail := "Event not found" }, db)
  | some e =>
    let e2 := applyEventUpdate e event_update
    (Except.ok e2,
      { db with events :=
          replaceFirstEvent (fun x => x.id == event_id && x.owner_id == c.id) e2 db.events })

/-- `DELETE /events/{event_id}` (`delete_event`): same ownership-scoped
lookup; 404 when it matches nothing, otherwise the row is deleted. -/
def delete_event (event_id : Nat) (c : User) (db : DB) :
    Except HError Unit × DB :=
  match db.events.find? (fun e => e.id == event_id && e.owner_id == c.id) with
  | none => (Except.error { status := 404, detail := "Event not found" }, db)
  | some _ =>
    (Except.ok (),
      { db with events :=
          removeFirstEvent (fun x => x.id == event_id && x.owner_id == c.id) db.events })

/-! ## `app/api/routes/auth.py` (credential helpers)

The bcrypt primitive (`passlib.CryptContext`) is external to the
repository and treated as an opaque capability. -/

/-- Modelled from the spec: the password-hashing primitive is out of
scope ("opaque `hash(password) -> digest`"); modelled as a one-way-style
tagging function whose digest is never equal to the plaintext. -/
def get_password_hash (password : String) : String :=
  "bcrypt-sha256:" ++ password

/-- Modelled from the spec: opaque `verify(password, digest) -> bool`,
succeeding exactly when the digest came from the password. -/
def verify_password (plain_password : String) (hashed_password : String) : Bool :=
  hashed_password == get_password_hash plain_password

/-- The claims dictionary handed to `jwt.encode`: a `sub` entry and the
`exp` entry (seconds since epoch) added by `create_access_token`. -/
structure Claims where
  sub : String
  exp : Nat
deriving DecidableEq, Repr

/-- `create_access_token(data, expires_delta)`: every caller passes
`data = {"sub": username}`; `expire` is now plus the supplied delta or,
when none is supplied, `timedelta(minutes=15)`.  Time is in seconds and
`now` is passed explicitly. -/
def create_access_token (sub : String) (expires_delta : Option Nat) (now : Nat) :
    Claims :=
  { sub := sub, exp := now + expires_delta.getD (15 * 60) }

/-! ## `app/api/routes/auth_routes.py` -/

/-- Request body of `POST /register` (`schemas.UserCreate`). -/
structure UserCreate where
  username : String
  email : String
  password : String
deriving DecidableEq, Repr

/-- Request body of `POST /login` (`schemas.UserLogin`). -/
structure UserLogin where
  email : String
  password : String
deriving DecidableEq, Repr

/-- Response body of `POST /login` (`schemas.Token`). -/
structure Token where
  access_token : Claims
  token_type : String
deriving DecidableEq, Repr

/-- `POST /register` (`register_user`): 400 "Email already registered"
when a user with the email exists; else 400 "Username already taken"
when a user with the username exists; else inserts a user whose
`hashed_password` is `get_password_hash` of the supplied password and
whose `name` duplicates the username. -/
def register_user (user_data : UserCreate) (db : DB) : Except HError User × DB :=
  match db.users.find? (fun u => u.email == user_data.email) with
  | some _ =>
    (Except.error { status := 400, detail := "Email already registered" }, db)
  | none =>
    match db.users.find? (fun u => u.username == user_data.username) with
    | some _ =>
      (Except.error { status := 400, detail := "Username already taken" }, db)
    | none =>
      let new_user : User :=
        { id := db.nextUserId
          name := user_data.username
          username := user_data.username
          email := user_data.email
          hashed_password := get_password_hash user_data.password }
      (Except.ok new_user,
        { db with users := db.users ++ [new_user]
                  nextUserId := db.nextUserId + 1 })

/-- `POST /login` (`login_user`): looks the user up by email; a missing
user and a failed `verify_password` both raise
`401 "Invalid credentials"`; on success issues a token with
`sub = username` and an explicit 30-minute expiry. -/
def login_user (user_data : UserLogin) (now : Nat) (db : DB) : Except HError Token :=
  match db.users.find? (fun u => u.email == user_data.email) with
  | none => Except.error { status := 401, detail := "Invalid credentials" }
  | some db_user =>
    if verify_password user_data.password db_user.hashed_password then
      Except.ok
        { access_token := create_access_token db_user.username (some (30 * 60)) now
          token_type := "bearer" }
    else
      Except.error { status := 401, detail := "Invalid credentials" }

/-- Python truthiness of an optional string: `None` and `""` are falsy. -/
def truthyOpt (o : Option String) : Bool :=
  match o with
  | none => false
  | some s => !s.isEmpty

/-- Request body of `PUT /me` (`schemas.UserUpdate`): in `schemas.py` the
`username` and `password` fields are `Optional[str] = None` but `email`
is a plain required `str`. -/
structure UserUpdate where
  username : Option String
  email : String
  password : Option String
deriving DecidableEq, Repr

/-- Pydantic validation of a `UserUpdate` request body: a body omitting
`email` is rejected (the field has no default), while `username` and
`password` default to `None`. -/
def UserUpdate.validate (username : Option String) (email : Option String)
    (password : Option String) : Option UserUpdate :=
  match email with
  | none => none
  | some e => some { username := username, email := e, password := password }

/-- The `if user_data.username:` branch of `update_user_info`: on a
truthy username, a conflict against a *different* user (`User.id !=
current_user.id`) raises 400, otherwise the value joins `update_data`. -/
def check_username_conflict (user_data : UserUpdate) (c : User) (db : DB) :
    Except HError (Option String) :=
  if truthyOpt user_data.username then
    if (db.users.find?
        (fun x => x.username == user_data.username.getD "" && x.id != c.id)).isSome then
      Except.error { status := 400, detail := "Username already taken" }
    else
      Except.ok user_data.username
  else
    Except.ok none

/-- The `if user_data.email:` branch of `update_user_info`. -/
def check_email_conflict (user_data : UserUpdate) (c : User) (db : DB) :
    Except HError (Option String) :=
  if truthyOpt (some user_data.email) then
    if (db.users.find?
        (fun x => x.email == user_data.email && x.id != c.id)).isSome then
      Except.error { status := 400, detail := "Email already taken" }
    else
      Except.ok (some user_data.email)
  else
    Except.ok none

/-- `PUT /me` (`update_user_info`): builds `update_data` from the truthy
fields (username also overwrites `name`; a truthy password is re-hashed),
then — only when `update_data` is non-empty — issues one UPDATE on the
row `User.id == current_user.id` and re-reads it; with nothing to update
it returns `current_user` without touching storage. -/
def update_user_info (user_data : UserUpdate) (c : User) (db : DB) :
    Except HError User × DB :=
  match check_username_conflict user_data c db with
  | Except.error e => (Except.error e, db)
  | Except.ok new_username =>
    match check_email_conflict user_data c db with
    | Except.error e => (Except.error e, db)
    | Except.ok new_email =>
      let new_hashed : Option String :=
        if truthyOpt user_data.password then
          some (get_password_hash (user_data.password.getD ""))
        else
          none
      if new_username.isSome || new_email.isSome || new_hashed.isSome then
        let apply_update := fun (x : User) =>
          { x with
            username := new_username.getD x.username
            name := new_username.getD x.name
            email := new_email.getD x.email
            hashed_password := new_hashed.getD x.hashed_password }
        let db2 :=
          { db with users := db.users.map (fun x => if x.id == c.id then apply_update x else x) }
        match db2.users.find? (fun x => x.id == c.id) with
        | some updated_user => (Except.ok updated_user, db2)
        | none => (Except.error { status := 500, detail := "Internal Server Error" }, db2)
      else
        (Except.ok c, db)

/-! ## Concrete fixtures used by witnesses and counterexamples -/

/-- A user with id 1. -/
def alice : User :=
  { id := 1, name := "alice", username := "alice", email := "alice@x.com"
    hashed_password := "h1" }

/-- A user with id 2. -/
def bob : User :=
  { id := 2, name := "bob", username := "bob", email := "bob@x.com"
    hashed_password := "h2" }

/-- A user whose stored digest comes from `get_password_hash`. -/
def carol : User :=
  { id := 3, name := "carol", username := "carol", email := "carol@x.com"
    hashed_password := get_password_hash "carolpw" }

/-- State in which alice has shared her calendar with bob — the single
edge `(1, 2)` — and nothing else. -/
def dbAB : DB :=
  { users := [alice, bob], events := [], edges := [(1, 2)]
    nextUserId := 3, nextEventId := 1 }

/-- State holding only alice and no sharing edges. -/
def dbSolo : DB :=
  { users := [alice], events := [], edges := [], nextUserId := 2, nextEventId := 1 }

/-- State holding only carol, for the login scenarios. -/
def dbAuth : DB :=
  { users := [carol], events := [], edges := [], nextUserId := 4, nextEventId := 1 }

/-- An event owned by alice. -/
def standup : Event :=
  { id := 1, title := "Standup", description := none, start_time := "T0"
    end_time := "T1", location := none, owner_id := 1 }

/-- State with alice, bob and alice's event `standup`; no sharing edges. -/
def dbEvents : DB :=
  { users := [alice, bob], events := [standup], edges := []
    nextUserId := 3, nextEventId := 2 }

/-- A request body for event creation. -/
def standupCreate : EventCreate :=
  { title := "Standup", description := none, start_time := "T0", end_time := "T1"
    location := none }

/-! ## Claims -/

/-- C10: `GET /shared/` (`get_shared_users`) and
`GET /shared/shared-with-me` (`get_calendars_shared_with_me`) evaluate
the identical query predicate
`User.shared_with.any(id=current_user.id)` with the identical emptiness
check, so on every state and current user they return the same result
(the same user list, or the same 404). -/
theorem shared_listing_endpoints_identical (c : User) (db : DB) :
    get_shared_users c db = get_calendars_shared_with_me c db := rfl

/-- C1: the code of `get_shared_users` contradicts its own docstring
("Get users with whom the current user's calendar is shared") and the
spec: with the single edge alice → bob, alice (who shared with bob) gets
a 404 instead of `[bob]`, while bob (who shared with nobody) gets
`[alice]` instead of a 404 — the query returns the users who shared
*with* the current user. -/
theorem get_shared_users_wrong_direction :
    dbAB.edges = [(alice.id, bob.id)] ∧
    get_shared_users alice dbAB =
      Except.error { status := 404, detail := "No users found" } ∧
    get_shared_users bob dbAB = Except.ok [alice] :=
  ⟨rfl, rfl, rfl⟩

/-- C8 counterexample: with no `expires_delta` supplied the expiry of
`create_access_token` is 15 minutes after issuance, not the claimed 30
minutes. -/
theorem create_access_token_default_not_30 :
    (create_access_token "alice" none 0).exp = 15 * 60 ∧
    (create_access_token "alice" none 0).exp ≠ 30 * 60 :=
  ⟨rfl, by decide⟩

/-- C8 amended: `create_access_token` embeds `sub = username` and an
expiry claim equal to the issuance instant plus the supplied ttl, the
ttl defaulting to 15 minutes (not 30) when unspecified. -/
theorem create_access_token_embeds_sub_and_expiry (s : String) (d t : Nat) :
    create_access_token s (some d) t = { sub := s, exp := t + d } ∧
    create_access_token s none t = { sub := s, exp := t + 15 * 60 } :=
  ⟨rfl, rfl⟩

/-- C7: the `UserUpdate` schema makes `email` a required field, so a
request body omitting all three fields is rejected by validation rather
than reaching the handler — contradicting the claim that each field is
independently optional — while the handler itself (which guards every
field by truthiness, as its tests assume) is a write-free no-op whenever
all supplied fields are falsy. -/
theorem user_update_email_required_handler_noop :
    UserUpdate.validate none none none = none ∧
    (∀ (c : User) (db : DB),
      update_user_info { username := none, email := "", password := none } c db =
        (Except.ok c, db)) :=
  ⟨rfl, fun _ _ => rfl⟩

/-- C9 counterexample: sharing with yourself is not guarded.  Starting
from a state with user alice and no edges, `share_calendar_with_user`
called by alice on her own id succeeds and leaves the self-edge
`(1, 1)` in the sharing graph — refuting "never results in a state
containing a self-edge". -/
theorem self_share_creates_self_edge :
    dbSolo.edges.contains (alice.id, alice.id) = false ∧
    (share_calendar_with_user alice.id alice dbSolo).1 = Except.ok alice ∧
    (share_calendar_with_user alice.id alice dbSolo).2.edges.contains
      (alice.id, alice.id) = true :=
  ⟨rfl, rfl, rfl⟩

/-- C9 amended: self-sharing is handled like any other share, with no
no-op or rejection: both `share_calendar_with_user` and
`share_calendar_with_me` called with the current user's own id succeed,
appending the self-edge `(C, C)` when it is absent and leaving the state
unchanged when it is present. -/
theorem self_share_adds_edge_idempotently (db : DB) (c : User)
    (hfind : queryUserById db c.id = some c) :
    (db.edges.contains (c.id, c.id) = false →
      share_calendar_with_user c.id c db =
        (Except.ok c, { db with edges := db.edges ++ [(c.id, c.id)] }) ∧
      share_calendar_with_me c.id c db =
        (Except.ok c, { db with edges := db.edges ++ [(c.id, c.id)] })) ∧
    (db.edges.contains (c.id, c.id) = true →
      share_calendar_with_user c.id c db = (Except.ok c, db) ∧
      share_calendar_with_me c.id c db = (Except.ok c, db)) := by
  constructor
  · intro hc
    have hmem : (c.id, c.id) ∉ db.edges := by simpa using hc
    constructor
    · simp [share_calendar_with_user, hfind, hmem]
    · simp [share_calendar_with_me, hfind, hmem]
  · intro hc
    have hmem : (c.id, c.id) ∈ db.edges := by simpa using hc
    constructor
    · simp [share_calendar_with_user, hfind, hmem]
    · simp [share_calendar_with_me, hfind, hmem]

/-- Witness for C9 amended: alice self-sharing in `dbSolo` concretely
appends the edge `(1, 1)`. -/
theorem self_share_adds_edge_idempotently_witness :
    share_calendar_with_user alice.id alice dbSolo =
      (Except.ok alice, { dbSolo with edges := dbSolo.edges ++ [(alice.id, alice.id)] }) :=
  ((self_share_adds_edge_idempotently dbSolo alice rfl).1 rfl).1

/-- C5: the two failure modes of login — no user carries the email, and
the stored digest rejects the password — raise the very same
`401 "Invalid credentials"` error, so a caller cannot tell a nonexistent
email from a wrong password. -/
theorem login_failure_modes_indistinguishable
    (db₁ db₂ : DB) (ld₁ ld₂ : UserLogin) (t₁ t₂ : Nat) (u : User)
    (h₁ : db₁.users.find? (fun x => x.email == ld₁.email) = none)
    (h₂ : db₂.users.find? (fun x => x.email == ld₂.email) = some u)
    (h₃ : verify_password ld₂.password u.hashed_password = false) :
    login_user ld₁ t₁ db₁ =
      Except.error { status := 401, detail := "Invalid credentials" } ∧
    login_user ld₂ t₂ db₂ =
      Except.error { status := 401, detail := "Invalid credentials" } ∧
    login_user ld₁ t₁ db₁ = login_user ld₂ t₂ db₂ := by
  have e₁ : login_user ld₁ t₁ db₁ =
      Except.error { status := 401, detail := "Invalid credentials" } := by
    simp [login_user, h₁]
  have e₂ : login_user ld₂ t₂ db₂ =
      Except.error { status := 401, detail := "Invalid credentials" } := by
    simp [login_user, h₂, h₃]
  exact ⟨e₁, e₂, e₁.trans e₂.symm⟩

/-- Witness for C5: against `dbAuth`, a login with an unknown email and
a login with carol's email but the wrong password produce the same
result. -/
theorem login_failure_modes_indistinguishable_witness :
    login_user { email := "ghost@x.com", password := "whatever" } 0 dbAuth =
    login_user { email := "carol@x.com", password := "wrongpw" } 0 dbAuth :=
  (login_failure_modes_indistinguishable dbAuth dbAuth
    { email := "ghost@x.com", password := "whatever" }
    { email := "carol@x.com", password := "wrongpw" }
    0 0 carol rfl rfl rfl).2.2

/-- The modelled digest never equals the plaintext it came from. -/
theorem get_password_hash_ne (p : String) : get_password_hash p ≠ p := by
  intro h
  have hl : (get_password_hash p).length = p.length := by rw [h]
  rw [get_password_hash, String.length_append] at hl
  have h14 : ("bcrypt-sha256:" : String).length = 14 := rfl
  omega

/-- C6: registration reports the email conflict first (even when the
username also conflicts), reports a username conflict otherwise, leaves
the state untouched on either failure, and on success appends exactly
one user whose stored `hashed_password` is the digest of the supplied
password and never the plaintext itself. -/
theorem register_user_conflicts_and_hashing (ud : UserCreate) (db : DB) :
    ((db.users.find? (fun u => u.email == ud.email)).isSome = true →
      register_user ud db =
        (Except.error { status := 400, detail := "Email already registered" }, db)) ∧
    ((db.users.find? (fun u => u.email == ud.email)).isSome = false →
      (db.users.find? (fun u => u.username == ud.username)).isSome = true →
      register_user ud db =
        (Except.error { status := 400, detail := "Username already taken" }, db)) ∧
    ((db.users.find? (fun u => u.email == ud.email)).isSome = false →
      (db.users.find? (fun u => u.username == ud.username)).isSome = false →
      ∃ nu : User,
        register_user ud db =
          (Except.ok nu,
            { db with users := db.users ++ [nu], nextUserId := db.nextUserId + 1 }) ∧
        nu.hashed_password = get_password_hash ud.password ∧
        nu.hashed_password ≠ ud.password ∧
        nu.username = ud.username ∧ nu.email = ud.email) := by
  refine ⟨?_, ?_, ?_⟩
  · intro he
    obtain ⟨u, hu⟩ := Option.isSome_iff_exists.mp he
    simp [register_user, hu]
  · intro he hn
    cases hfe : db.users.find? (fun u => u.email == ud.email) with
    | some u => rw [hfe] at he; simp at he
    | none =>
      obtain ⟨u, hu⟩ := Option.isSome_iff_exists.mp hn
      simp [register_user, hfe, hu]
  · intro he hn
    cases hfe : db.users.find? (fun u => u.email == ud.email) with
    | some u => rw [hfe] at he; simp at he
    | none =>
      cases hfn : db.users.find? (fun u => u.username == ud.username) with
      | some u => rw [hfn] at hn; simp at hn
      | none =>
        refine ⟨{ id := db.nextUserId, name := ud.username, username := ud.username
                  email := ud.email, hashed_password := get_password_hash ud.password },
          ?_, rfl, get_password_hash_ne ud.password, rfl, rfl⟩
        simp [register_user, hfe, hfn]

/-- Witness for C6: registering a fresh username under alice's existing
email in `dbAB` fails with the email conflict and leaves the state
unchanged. -/
theorem register_user_conflicts_and_hashing_witness :
    register_user { username := "newalice", email := "alice@x.com", password := "pw" }
      dbAB =
      (Except.error { status := 400, detail := "Email already registered" }, dbAB) :=
  (register_user_conflicts_and_hashing
    { username := "newalice", email := "alice@x.com", password := "pw" } dbAB).1 rfl

/-- C2: `share_event_with_me` fails 404 when `owner_id` does not exist;
when it exists and the edge `(owner_id, C)` is present it inserts a new
event carrying the supplied fields whose `owner_id` is the *current*
user's id (not the sharer's); when the owner exists but the edge is
absent it fails 403. -/
theorem share_event_with_me_authorization (db : DB) (c : User) (ed : EventCreate)
    (uid : Nat) :
    (queryUserById db uid = none →
      share_event_with_me ed uid c db =
        (Except.error { status := 404, detail := "User not found" }, db)) ∧
    (∀ sharer : User, queryUserById db uid = some sharer →
      (db.edges.contains (sharer.id, c.id) = true →
        share_event_with_me ed uid c db =
          (Except.ok
            { id := db.nextEventId, title := ed.title, description := ed.description
              start_time := ed.start_time, end_time := ed.end_time
              location := ed.location, owner_id := c.id },
            { db with
              events := db.events ++
                [{ id := db.nextEventId, title := ed.title
                   description := ed.description, start_time := ed.start_time
                   end_time := ed.end_time, location := ed.location
                   owner_id := c.id }]
              nextEventId := db.nextEventId + 1 })) ∧
      (db.edges.contains (sharer.id, c.id) = false →
        share_event_with_me ed uid c db =
          (Except.error { status := 403, detail := "Calendar not shared with you" }, db))) := by
  constructor
  · intro h
    simp [share_event_with_me, h]
  · intro sharer hs
    constructor
    · intro hc
      have hmem : (sharer.id, c.id) ∈ db.edges := by simpa using hc
      simp [share_event_with_me, hs, hmem]
    · intro hc
      have hmem : (sharer.id, c.id) ∉ db.edges := by simpa using hc
      simp [share_event_with_me, hs, hmem]

/-- Witness for C2: in `dbAB` (alice shared with bob), bob cloning
alice's event template gets a new event owned by bob (id 2, not 1),
while alice — with whom bob has not shared — gets the 403. -/
theorem share_event_with_me_authorization_witness :
    share_event_with_me standupCreate 1 bob dbAB =
      (Except.ok
        { id := dbAB.nextEventId, title := standupCreate.title
          description := standupCreate.description
          start_time := standupCreate.start_time
          end_time := standupCreate.end_time
          location := standupCreate.location, owner_id := bob.id },
        { dbAB with
          events := dbAB.events ++
            [{ id := dbAB.nextEventId, title := standupCreate.title
               description := standupCreate.description
               start_time := standupCreate.start_time
               end_time := standupCreate.end_time
               location := standupCreate.location, owner_id := bob.id }]
          nextEventId := dbAB.nextEventId + 1 }) ∧
    share_event_with_me standupCreate 2 alice dbAB =
      (Except.error { status := 403, detail := "Calendar not shared with you" }, dbAB) :=
  ⟨((share_event_with_me_authorization dbAB bob standupCreate 1).2 alice rfl).1 rfl,
   ((share_event_with_me_authorization dbAB alice standupCreate 2).2 bob rfl).2 rfl⟩

/-- C3: `update_event` and `delete_event` fail if and only if no event
with the given id is owned by the current user — an event owned by
someone else and a nonexistent id produce the identical
`404 "Event not found"` result with the state untouched — and succeed
otherwise. -/
theorem events_update_delete_not_found (db : DB) (c : User) (eid : Nat)
    (patch : EventUpdate) :
    ((∀ e ∈ db.events, ¬(e.id = eid ∧ e.owner_id = c.id)) →
      update_event eid patch c db =
        (Except.error { status := 404, detail := "Event not found" }, db) ∧
      delete_event eid c db =
        (Except.error { status := 404, detail := "Event not found" }, db)) ∧
    ((∃ e ∈ db.events, e.id = eid ∧ e.owner_id = c.id) →
      (update_event eid patch c db).1.isOk = true ∧
      (delete_event eid c db).1.isOk = true) := by
  constructor
  · intro h
    have hn : db.events.find? (fun e => e.id == eid && e.owner_id == c.id) = none := by
      rw [List.find?_eq_none]
      intro x hx hpx
      exact h x hx (by simpa using hpx)
    constructor
    · simp [update_event, hn]
    · simp [delete_event, hn]
  · intro h
    obtain ⟨e, he, h1, h2⟩ := h
    have hs : (db.events.find? (fun e => e.id == eid && e.owner_id == c.id)).isSome := by
      rw [List.find?_isSome]
      exact ⟨e, he, by simp [h1, h2]⟩
    obtain ⟨e0, he0⟩ := Option.isSome_iff_exists.mp hs
    constructor
    · simp [update_event, he0, Except.isOk, Except.toBool]
    · simp [delete_event, he0, Except.isOk, Except.toBool]

/-- Witness for C3: in `dbEvents` the event id 1 exists but belongs to
alice, so bob updating or deleting it gets the same 404 as for the
nonexistent id 99, with the state unchanged; alice deleting id 1
succeeds. -/
theorem events_update_delete_not_found_witness :
    update_event 1
      { title := none, description := none, start_time := none, end_time := none
        location := none } bob dbEvents =
      (Except.error { status := 404, detail := "Event not found" }, dbEvents) ∧
    delete_event 99 bob dbEvents =
      (Except.error { status := 404, detail := "Event not found" }, dbEvents) ∧
    (delete_event 1 alice dbEvents).1.isOk = true :=
  ⟨((events_update_delete_not_found dbEvents bob 1
      { title := none, description := none, start_time := none, end_time := none
        location := none }).1 (by decide)).1,
   ((events_update_delete_not_found dbEvents bob 99
      { title := none, description := none, start_time := none, end_time := none
        location := none }).1 (by decide)).2,
   ((events_update_delete_not_found dbEvents alice 1
      { title := none, description := none, start_time := none, end_time := none
        location := none }).2 (by decide)).2⟩

/-- C4: under the no-duplicate-edge invariant, sharing twice with an
existing target succeeds both times and leaves exactly one edge
`(C, target)` — the second call changes nothing — and unsharing when the
edge is absent succeeds as a silent no-op leaving the graph unchanged. -/
theorem share_unshare_idempotent (db : DB) (c : User) (uid : Nat) (target : User)
    (hfind : queryUserById db uid = some target) :
    (db.edges.count (c.id, uid) ≤ 1 →
      (share_calendar_with_user uid c db).1 = Except.ok target ∧
      (share_calendar_with_user uid c (share_calendar_with_user uid c db).2).1 =
        Except.ok target ∧
      (share_calendar_with_user uid c (share_calendar_with_user uid c db).2).2 =
        (share_calendar_with_user uid c db).2 ∧
      (share_calendar_with_user uid c db).2.edges.count (c.id, uid) = 1) ∧
    (db.edges.contains (c.id, uid) = false →
      unshare_calendar_with_user uid c db = (Except.ok (), db)) := by
  have hid : target.id = uid := by simpa using List.find?_some hfind
  constructor
  · intro hcount
    cases hc : db.edges.contains (c.id, uid) with
    | false =>
      have hmem : (c.id, uid) ∉ db.edges := by simpa using hc
      have h1 : share_calendar_with_user uid c db =
          (Except.ok target, { db with edges := db.edges ++ [(c.id, uid)] }) := by
        simp [share_calendar_with_user, hfind, hid, hmem]
      have hfind2 : queryUserById { db with edges := db.edges ++ [(c.id, uid)] } uid =
          some target := hfind
      have hmem2 : (c.id, uid) ∈ db.edges ++ [(c.id, uid)] := by simp
      have h2 : share_calendar_with_user uid c
          { db with edges := db.edges ++ [(c.id, uid)] } =
          (Except.ok target, { db with edges := db.edges ++ [(c.id, uid)] }) := by
        simp [share_calendar_with_user, hfind2, hid, hmem2]
      have hzero : db.edges.count (c.id, uid) = 0 := List.count_eq_zero.mpr hmem
      simp [h1, h2, hzero]
    | true =>
      have hmem : (c.id, uid) ∈ db.edges := by simpa using hc
      have h1 : share_calendar_with_user uid c db = (Except.ok target, db) := by
        simp [share_calendar_with_user, hfind, hid, hmem]
      have hpos : 0 < db.edges.count (c.id, uid) := by
        rw [List.count_pos_iff]
        exact hmem
      have heq : db.edges.count (c.id, uid) = 1 := by omega
      simp [h1, heq]
  · intro hc
    have hmem : (c.id, uid) ∉ db.edges := by simpa using hc
    simp [unshare_calendar_with_user, hfind, hid, hmem]

/-- Witness for C4: alice sharing twice with bob from `dbAB` (where the
edge already exists) keeps exactly one `(1, 2)` edge, and bob unsharing
the absent edge `(2, 1)` is a successful no-op on `dbAB`. -/
theorem share_unshare_idempotent_witness :
    (share_calendar_with_user 2 alice (share_calendar_with_user 2 alice dbAB).2).2 =
      (share_calendar_with_user 2 alice dbAB).2 ∧
    (share_calendar_with_user 2 alice dbAB).2.edges.count (alice.id, 2) = 1 ∧
    unshare_calendar_with_user 1 bob dbAB = (Except.ok (), dbAB) :=
  ⟨((share_unshare_idempotent dbAB alice 2 bob rfl).1 (by decide)).2.2.1,
   ((share_unshare_idempotent dbAB alice 2 bob rfl).1 (by decide)).2.2.2,
   (share_unshare_idempotent dbAB bob 1 alice rfl).2 (by decide)⟩

end WhenWorks
